import Mathlib

/-!
Shallow embedding of the Vidley frontend core (`src/frontend/src/App.js`):
the download-history log (`saveToHistory`, `clearHistory`), the remote
operations (`getVideoInfo`, `handleDownload`), and the debounced preview
trigger (the `useEffect` timer on the URL input).

React state hooks become an explicit `AppState` record; each handler is a
pure transition returning the new state together with a trace of external
effects (network posts, persistence writes/deletes, window opens, console
logging). Server responses and persistence success are parameters, since
they are external inputs to the handlers. JavaScript's `a || b` on strings
(empty string and undefined are falsy) is modelled by `jsOr`.
-/

/-- The `message` state hook: `{ type, text }`. -/
structure Message where
  type : String
  text : String
deriving Repr, DecidableEq

/-- Transient video metadata (`response.data.data` of `/api/video-info`). -/
structure VideoData where
  title : Option String
  thumbnail : Option String
  duration : Option Nat
  uploader : Option String
  extractor : Option String
deriving Repr, DecidableEq

/-- One record of the download history. `downloadedAt` is optional in the
caller-supplied object and stamped by `saveToHistory`. -/
structure HistoryEntry where
  url : String
  title : Option String
  filename : Option String
  duration : Option Nat
  quality : String
  thumbnail : Option String
  downloadedAt : Option String
deriving Repr, DecidableEq

/-- The React state hooks of `App` that the specified core reads/writes. -/
structure AppState where
  url : String
  quality : String
  loading : Bool
  loadingInfo : Bool
  message : Message
  videoInfo : Option VideoData
  downloadHistory : List HistoryEntry
  isOnline : Bool
deriving Repr, DecidableEq

/-- The persisted `downloadHistory` record of localforage:
`none` when the key is absent. -/
def Store := Option (List HistoryEntry)
deriving Repr, DecidableEq

/-- External effects a handler performs, in order. -/
inductive Effect where
  | netPost (endpoint : String)
  | storeSet (value : List HistoryEntry)
  | storeRemove
  | openWindow (path : String)
  | consoleError (context : String)
deriving Repr, DecidableEq

/-- A resolved or rejected axios call. `ok success error payload` is a 2xx
response body `{success, error?, ...payload}`; `err detail message` is a
rejected promise, carrying `error.response?.data?.detail` and
`error.message` (either may be absent). -/
inductive ApiOutcome (α : Type) where
  | ok (success : Bool) (error : Option String) (payload : α)
  | err (detail : Option String) (message : Option String)
deriving Repr, DecidableEq

/-- Payload fields of a successful `/api/download` response that the
handler reads. -/
structure DownloadPayload where
  download_url : String
  title : Option String
  filename : Option String
  duration : Option Nat
deriving Repr, DecidableEq

/-- JavaScript `a || b` for an optional string `a`: an absent or empty
string is falsy. -/
def jsOr (a : Option String) (b : String) : String :=
  match a with
  | some s => if s = "" then b else s
  | none => b

/-- JavaScript `s.trim()`: strip leading and trailing whitespace. -/
def jsTrim (s : String) : String :=
  String.mk (((s.data.dropWhile Char.isWhitespace).reverse.dropWhile
    Char.isWhitespace).reverse)

/-- JavaScript `s.includes(pat)`: substring containment. -/
def strIncludes (s pat : String) : Bool :=
  (List.range (s.data.length + 1)).any
    (fun i => pat.data.isPrefixOf (s.data.drop i))

/-- `saveToHistory(item)` (App.js lines 63-78): stamp `downloadedAt`,
prepend, `slice(0, 20)`, `localforage.setItem`, then update the state
hook; a persistence failure is caught and logged, leaving the in-memory
state untouched. `now` is `new Date().toISOString()`; `setOk` is whether
the `setItem` promise resolves. -/
def saveToHistory (now : String) (item : HistoryEntry) (st : AppState)
    (store : Store) (setOk : Bool) : AppState × Store × List Effect :=
  let stamped : HistoryEntry := { item with downloadedAt := some now }
  let newHistory : List HistoryEntry := (stamped :: st.downloadHistory).take 20
  if setOk then
    ({ st with downloadHistory := newHistory }, some newHistory,
      [Effect.storeSet newHistory])
  else
    (st, store, [Effect.storeSet newHistory, Effect.consoleError "Failed to save history:"])

/-- `clearHistory()` (App.js lines 81-89): `localforage.removeItem`, then
empty the state hook and set a success message; a failure is caught and
logged, and none of the state updates run. `removeOk` is whether the
`removeItem` promise resolves. -/
def clearHistory (st : AppState) (store : Store) (removeOk : Bool) :
    AppState × Store × List Effect :=
  if removeOk then
    ({ st with
        downloadHistory := []
        message := { type := "success", text := "History cleared" } },
      none, [Effect.storeRemove])
  else
    (st, store, [Effect.storeRemove, Effect.consoleError "Failed to clear history:"])

/-- `getVideoInfo()` (App.js lines 92-115): silently return when the
trimmed URL is empty; otherwise set loading, clear message and videoInfo,
POST `/api/video-info`, and apply the outcome; `finally` clears the
loading flag. -/
def getVideoInfo (st : AppState) (outcome : ApiOutcome VideoData) :
    AppState × List Effect :=
  if jsTrim st.url = "" then (st, [])
  else
    let st1 : AppState :=
      { st with
          loadingInfo := true
          message := { type := "", text := "" }
          videoInfo := none }
    match outcome with
    | ApiOutcome.ok true _ d =>
        ({ st1 with videoInfo := some d, loadingInfo := false },
          [Effect.netPost "/api/video-info"])
    | ApiOutcome.ok false e _ =>
        ({ st1 with
            message := { type := "error", text := jsOr e "Failed to get video info" }
            loadingInfo := false },
          [Effect.netPost "/api/video-info"])
    | ApiOutcome.err detail msg =>
        ({ st1 with
            message := { type := "error", text := jsOr detail (jsOr msg "Failed to connect to server") }
            loadingInfo := false },
          [Effect.netPost "/api/video-info"])

/-- `handleDownload()` (App.js lines 129-175): validation guard on the
trimmed URL, admission guard on `isOnline`, then set loading, clear the
message, POST `/api/download`, and on success open the download URL, save
to history, set the success message and reset `url`/`videoInfo`;
`finally` clears the loading flag. -/
def handleDownload (st : AppState) (store : Store)
    (outcome : ApiOutcome DownloadPayload) (now : String) (setOk : Bool) :
    AppState × Store × List Effect :=
  if jsTrim st.url = "" then
    ({ st with message := { type := "error", text := "Please enter a video URL" } },
      store, [])
  else if !st.isOnline then
    ({ st with message := { type := "error", text := "You are offline. Please connect to the internet to download." } },
      store, [])
  else
    let st1 : AppState :=
      { st with loading := true, message := { type := "", text := "" } }
    match outcome with
    | ApiOutcome.ok true _ p =>
        let item : HistoryEntry :=
          { url := jsTrim st.url
            title := p.title
            filename := p.filename
            duration := p.duration
            quality := st.quality
            thumbnail := st.videoInfo.bind (fun v => v.thumbnail)
            downloadedAt := none }
        let saved := saveToHistory now item st1 store setOk
        ({ saved.1 with
            message := { type := "success", text := "Download started! Check your downloads folder." }
            url := ""
            videoInfo := none
            loading := false },
          saved.2.1,
          Effect.netPost "/api/download" :: Effect.openWindow p.download_url ::
            saved.2.2)
    | ApiOutcome.ok false e _ =>
        ({ st1 with
            message := { type := "error", text := jsOr e "Download failed" }
            loading := false },
          store, [Effect.netPost "/api/download"])
    | ApiOutcome.err detail msg =>
        ({ st1 with
            message := { type := "error", text := jsOr detail (jsOr msg "Failed to download video") }
            loading := false },
          store, [Effect.netPost "/api/download"])

/-- Whether an effect trace contains a network request. -/
def hasNetPost (effs : List Effect) : Bool :=
  effs.any (fun e => match e with | Effect.netPost _ => true | _ => false)

/-- A sequence of `saveToHistory` calls: each step supplies the timestamp,
the item and whether the persistence write succeeds. -/
def runAppends (st : AppState) (store : Store) :
    List (String × HistoryEntry × Bool) → AppState × Store
  | [] => (st, store)
  | (now, item, setOk) :: rest =>
      let step := saveToHistory now item st store setOk
      runAppends step.1 step.2.1 rest

/-- The guard of the debounce `useEffect` timer (App.js line 120):
`url.trim() && url.includes('http')`. -/
def debounceGuard (v : String) : Bool :=
  jsTrim v ≠ "" && strIncludes v "http"

/-- The debounce `useEffect` (App.js lines 118-126) over a list of URL
changes `(time, value)` in chronological order: each change schedules a
500ms timer with its value; the effect cleanup on the next change cancels
a timer that has not yet fired. A timer fires when the next change comes
500ms or later (or there is no next change); a fired timer invokes the
fetch only when its value passes `debounceGuard`. Returns the fetched
values in order. -/
def debounceFires : List (Nat × String) → List String
  | [] => []
  | (t, v) :: rest =>
      let live : Bool :=
        match rest with
        | [] => true
        | (t2, _) :: _ => decide (t + 500 ≤ t2)
      (if live && debounceGuard v then [v] else []) ++ debounceFires rest

/-- All consecutive URL changes are less than 500ms apart. -/
def rapid : List (Nat × String) → Bool
  | (t1, _) :: (t2, v2) :: rest => decide (t2 < t1 + 500) && rapid ((t2, v2) :: rest)
  | _ => true

/-- An event in the life of overlapping `getVideoInfo` calls: `start` is
the code before the `await` (set loading, clear message and videoInfo,
issue the POST); `complete o` is the `then`/`catch`/`finally` code run
when that call's response `o` arrives. The handler applies its outcome
unconditionally — there is no sequence-number or cancellation check. -/
inductive FetchEvent where
  | start
  | complete (outcome : ApiOutcome VideoData)
deriving Repr

/-- State effect of a completed `getVideoInfo` call (App.js lines 104-113),
applied at completion time regardless of any newer fetch. -/
def applyFetchCompletion (st : AppState) (outcome : ApiOutcome VideoData) :
    AppState :=
  match outcome with
  | ApiOutcome.ok true _ d =>
      { st with videoInfo := some d, loadingInfo := false }
  | ApiOutcome.ok false e _ =>
      { st with
          message := { type := "error", text := jsOr e "Failed to get video info" }
          loadingInfo := false }
  | ApiOutcome.err detail msg =>
      { st with
          message := { type := "error", text := jsOr detail (jsOr msg "Failed to connect to server") }
          loadingInfo := false }

/-- Run an interleaving of fetch starts and completions (the url is
non-empty whenever a fetch starts, as guaranteed by the debounce guard). -/
def runFetches (st : AppState) : List FetchEvent → AppState
  | [] => st
  | FetchEvent.start :: rest =>
      runFetches
        { st with
            loadingInfo := true
            message := { type := "", text := "" }
            videoInfo := none } rest
  | FetchEvent.complete o :: rest =>
      runFetches (applyFetchCompletion st o) rest

/-! ## Concrete fixtures for witnesses and counterexamples -/

/-- The initial hook values of `App` (empty URL, quality `best`, online). -/
def baseState : AppState :=
  { url := ""
    quality := "best"
    loading := false
    loadingInfo := false
    message := { type := "", text := "" }
    videoInfo := none
    downloadHistory := []
    isOnline := true }

/-- A sample stored history entry. -/
def sampleEntry : HistoryEntry :=
  { url := "https://example.com/old"
    title := some "old"
    filename := none
    duration := some 60
    quality := "best"
    thumbnail := none
    downloadedAt := some "2024-01-01T00:00:00.000Z" }

/-- A sample successful download payload. -/
def samplePayload : DownloadPayload :=
  { download_url := "/downloads/cat.mp4"
    title := some "Cat video"
    filename := some "cat.mp4"
    duration := some 120 }

/-! ## Helper lemmas -/

theorem saveToHistory_length_le (now : String) (item : HistoryEntry)
    (st : AppState) (store : Store) (setOk : Bool)
    (h : st.downloadHistory.length ≤ 20) :
    (saveToHistory now item st store setOk).1.downloadHistory.length ≤ 20 := by
  unfold saveToHistory
  cases setOk
  · simp only [Bool.false_eq_true, if_false]
    exact h
  · simp only [if_true, List.length_take]
    omega

theorem runAppends_length_le (ops : List (String × HistoryEntry × Bool))
    (st : AppState) (store : Store)
    (h : st.downloadHistory.length ≤ 20) :
    (runAppends st store ops).1.downloadHistory.length ≤ 20 := by
  induction ops generalizing st store with
  | nil => exact h
  | cons op rest ih =>
      obtain ⟨now, item, setOk⟩ := op
      exact ih _ _ (saveToHistory_length_le now item st store setOk h)

/-- A state whose history already holds 20 entries. -/
def stateWith20 : AppState :=
  { baseState with
      downloadHistory := (List.range 20).map (fun n => { sampleEntry with duration := some n }) }

/-! ## C1 -/

/-- C1: after any sequence of appends starting from a log of at most 20
entries the log length stays at most 20, and an append (whose persistence
write succeeds) on a log of exactly 20 entries yields the stamped new
entry followed by all previous entries except the last (tail): exactly
the oldest-by-insertion entry is evicted and the length stays 20. -/
theorem history_bounded_and_evicts_oldest
    (st : AppState) (store : Store) (ops : List (String × HistoryEntry × Bool))
    (now : String) (item : HistoryEntry)
    (hlen : st.downloadHistory.length ≤ 20) :
    (runAppends st store ops).1.downloadHistory.length ≤ 20 ∧
    (st.downloadHistory.length = 20 →
      (saveToHistory now item st store true).1.downloadHistory
        = { item with downloadedAt := some now } :: st.downloadHistory.dropLast ∧
      (saveToHistory now item st store true).1.downloadHistory.length = 20) := by
  refine ⟨runAppends_length_le ops st store hlen, fun h20 => ?_⟩
  have hstep : ∀ (x : HistoryEntry) (l : List HistoryEntry),
      (x :: l).take 20 = x :: l.take 19 := fun _ _ => rfl
  have htake : st.downloadHistory.take 19 = st.downloadHistory.dropLast := by
    rw [List.dropLast_eq_take, h20]
  constructor
  · unfold saveToHistory
    simp only [if_pos]
    rw [hstep, htake]
  · unfold saveToHistory
    simp only [if_pos]
    rw [hstep, htake]
    simp [List.length_dropLast, h20]

/-- C1 witness: the bound and the eviction shape at a concrete 20-entry
log and one concrete append. -/
theorem history_bounded_and_evicts_oldest_witness :
    stateWith20.downloadHistory.length ≤ 20 ∧
    ((runAppends stateWith20 (some stateWith20.downloadHistory)
        [("2024-05-05T00:00:00.000Z", sampleEntry, true)]).1.downloadHistory.length ≤ 20 ∧
      (stateWith20.downloadHistory.length = 20 →
        (saveToHistory "2024-05-05T00:00:00.000Z" sampleEntry stateWith20
            (some stateWith20.downloadHistory) true).1.downloadHistory
          = { sampleEntry with downloadedAt := some "2024-05-05T00:00:00.000Z" }
              :: stateWith20.downloadHistory.dropLast ∧
        (saveToHistory "2024-05-05T00:00:00.000Z" sampleEntry stateWith20
            (some stateWith20.downloadHistory) true).1.downloadHistory.length = 20)) :=
  ⟨by decide,
    history_bounded_and_evicts_oldest stateWith20 (some stateWith20.downloadHistory)
      [("2024-05-05T00:00:00.000Z", sampleEntry, true)]
      "2024-05-05T00:00:00.000Z" sampleEntry (by decide)⟩

/-! ## C2 -/

/-- A state ready to download: non-empty URL, online, quality `high`. -/
def stateReady : AppState :=
  { baseState with url := "https://example.com/v1", quality := "high" }

/-- C2: a successful download prepends a head entry whose `url` is the
trimmed submitted URL, `title` the server-returned title, `quality` the
quality selected at submission, and `downloadedAt` the timestamp stamped
at insertion; and for an arbitrary caller-supplied item, `saveToHistory`
always overrides its `downloadedAt` with the stamped timestamp. -/
theorem download_success_head_entry
    (st : AppState) (store : Store) (e : Option String) (p : DownloadPayload)
    (now : String) (item : HistoryEntry)
    (hurl : jsTrim st.url ≠ "") (hon : st.isOnline = true) :
    (handleDownload st store (ApiOutcome.ok true e p) now true).1.downloadHistory.head?
      = some ⟨jsTrim st.url, p.title, p.filename, p.duration, st.quality,
          st.videoInfo.bind (fun v => v.thumbnail), some now⟩ ∧
    ((saveToHistory now item st store true).1.downloadHistory.head?.map
        (fun x => x.downloadedAt)) = some (some now) := by
  have hstep : ∀ (x : HistoryEntry) (l : List HistoryEntry),
      ((x :: l).take 20).head? = some x := fun _ _ => rfl
  constructor
  · simp only [handleDownload, if_neg hurl, hon, Bool.not_true, Bool.false_eq_true,
      if_false, saveToHistory]
    simp [hstep]
  · simp only [saveToHistory, if_true, hstep]
    rfl

/-- C2 witness: the scenario of the spec — submitting
`https://example.com/v1` at quality `high` with server title `Cat video`. -/
theorem download_success_head_entry_witness :
    (jsTrim stateReady.url ≠ "" ∧ stateReady.isOnline = true) ∧
    ((handleDownload stateReady none (ApiOutcome.ok true none samplePayload)
        "2024-05-05T00:00:00.000Z" true).1.downloadHistory.head?
      = some ⟨jsTrim stateReady.url, samplePayload.title, samplePayload.filename,
          samplePayload.duration, stateReady.quality,
          stateReady.videoInfo.bind (fun v => v.thumbnail),
          some "2024-05-05T00:00:00.000Z"⟩ ∧
    ((saveToHistory "2024-05-05T00:00:00.000Z" sampleEntry stateReady none
        true).1.downloadHistory.head?.map (fun x => x.downloadedAt))
      = some (some "2024-05-05T00:00:00.000Z")) :=
  ⟨⟨by decide, rfl⟩,
    download_success_head_entry stateReady none none samplePayload
      "2024-05-05T00:00:00.000Z" sampleEntry (by decide) rfl⟩

/-! ## C3 -/

/-- A state whose URL is whitespace-only. -/
def stateBlankUrl : AppState :=
  { baseState with url := "   " }

/-- C3 counterexample: on a whitespace-only URL the metadata fetch
returns with the entire state unchanged — in particular the message stays
empty, so no validation failure is surfaced as a user-facing message. -/
theorem getVideoInfo_blank_counterexample :
    getVideoInfo stateBlankUrl (ApiOutcome.err none none) = (stateBlankUrl, []) ∧
    stateBlankUrl.message.text = "" := by
  constructor
  · rfl
  · rfl

/-- C3 (amended): for every input whose trimmed URL is empty, the
metadata fetch issues no network request and returns silently: the state
(message included) is unchanged and no effect is performed. -/
theorem getVideoInfo_empty_url_silent (st : AppState)
    (o : ApiOutcome VideoData) (h : jsTrim st.url = "") :
    getVideoInfo st o = (st, []) := by
  simp [getVideoInfo, h]

/-- C3 witness: the whitespace-only URL `"   "`. -/
theorem getVideoInfo_empty_url_silent_witness :
    jsTrim stateBlankUrl.url = "" ∧
    getVideoInfo stateBlankUrl (ApiOutcome.ok true none
        ⟨some "Cat video", none, some 120, none, none⟩) = (stateBlankUrl, []) :=
  ⟨by decide,
    getVideoInfo_empty_url_silent stateBlankUrl
      (ApiOutcome.ok true none ⟨some "Cat video", none, some 120, none, none⟩)
      (by decide)⟩

/-! ## C4 -/

/-- An offline state with an empty URL. -/
def stateOfflineEmpty : AppState :=
  { baseState with url := "", isOnline := false }

/-- An offline state with a valid URL. -/
def stateOffline : AppState :=
  { baseState with url := "https://example.com/v1", isOnline := false }

/-- C4 counterexample: offline with an empty URL, the surfaced message is
the URL-validation failure, not the offline admission failure — the
validation guard runs first, so the admission failure is not returned
regardless of URL validity. -/
theorem download_offline_empty_url_counterexample :
    (handleDownload stateOfflineEmpty none (ApiOutcome.err none none)
        "2024-05-05T00:00:00.000Z" true).1.message.text = "Please enter a video URL" ∧
    (handleDownload stateOfflineEmpty none (ApiOutcome.err none none)
        "2024-05-05T00:00:00.000Z" true).1.message.text
      ≠ "You are offline. Please connect to the internet to download." := by
  constructor
  · rfl
  · decide

/-- C4 (amended): when offline, the download handler issues no network
request (and no other effect, for any URL) and leaves the store alone;
when additionally the trimmed URL is non-empty, it returns the admission
failure message and changes nothing else in the state. -/
theorem download_offline_no_request (st : AppState) (store : Store)
    (o : ApiOutcome DownloadPayload) (now : String) (setOk : Bool)
    (hoff : st.isOnline = false) :
    hasNetPost (handleDownload st store o now setOk).2.2 = false ∧
    (handleDownload st store o now setOk).2.2 = [] ∧
    (handleDownload st store o now setOk).2.1 = store ∧
    (jsTrim st.url ≠ "" →
      (handleDownload st store o now setOk).1
        = { st with message := { type := "error", text := "You are offline. Please connect to the internet to download." } }) := by
  by_cases h : jsTrim st.url = ""
  · simp [handleDownload, h, hasNetPost]
  · simp [handleDownload, h, hoff, hasNetPost]

/-- C4 witness: offline with a valid URL. -/
theorem download_offline_no_request_witness :
    stateOffline.isOnline = false ∧ jsTrim stateOffline.url ≠ "" ∧
    hasNetPost (handleDownload stateOffline none (ApiOutcome.err none none)
        "2024-05-05T00:00:00.000Z" true).2.2 = false ∧
    (handleDownload stateOffline none (ApiOutcome.err none none)
        "2024-05-05T00:00:00.000Z" true).1
      = { stateOffline with message := { type := "error", text := "You are offline. Please connect to the internet to download." } } :=
  ⟨rfl, by decide,
    (download_offline_no_request stateOffline none (ApiOutcome.err none none)
      "2024-05-05T00:00:00.000Z" true rfl).1,
    (download_offline_no_request stateOffline none (ApiOutcome.err none none)
      "2024-05-05T00:00:00.000Z" true rfl).2.2.2 (by decide)⟩

/-! ## C5 -/

/-- C5 counterexample: a rejected metadata request with no `error` and no
`detail` field but a transport message surfaces the transport message,
not the operation's generic fallback string. -/
theorem surfaced_error_transport_counterexample :
    (getVideoInfo stateReady (ApiOutcome.err none (some "Network Error"))).1.message.text
      = "Network Error" ∧
    (getVideoInfo stateReady (ApiOutcome.err none (some "Network Error"))).1.message.text
      ≠ "Failed to get video info" ∧
    (getVideoInfo stateReady (ApiOutcome.err none (some "Network Error"))).1.message.text
      ≠ "Failed to connect to server" := by
  refine ⟨rfl, by decide, by decide⟩

/-- C5 (amended): the surfaced failure text is three-tier: a non-empty
application-level `error` field is surfaced verbatim; otherwise, for a
rejected request, a non-empty `detail` field is surfaced, then a
non-empty transport message, then the operation's generic fallback; a
2xx `success:false` body without a usable `error` surfaces the
operation's generic fallback. -/
theorem surfaced_error_tiers (st : AppState) (store : Store)
    (now X Y M : String) (d : VideoData) (p : DownloadPayload) (setOk : Bool)
    (hurl : jsTrim st.url ≠ "") (hon : st.isOnline = true)
    (hX : X ≠ "") (hY : Y ≠ "") (hM : M ≠ "") :
    (getVideoInfo st (ApiOutcome.ok false (some X) d)).1.message.text = X ∧
    (getVideoInfo st (ApiOutcome.ok false none d)).1.message.text
      = "Failed to get video info" ∧
    (getVideoInfo st (ApiOutcome.err (some Y) (some M))).1.message.text = Y ∧
    (getVideoInfo st (ApiOutcome.err none (some M))).1.message.text = M ∧
    (getVideoInfo st (ApiOutcome.err none none)).1.message.text
      = "Failed to connect to server" ∧
    (handleDownload st store (ApiOutcome.ok false (some X) p) now setOk).1.message.text = X ∧
    (handleDownload st store (ApiOutcome.ok false none p) now setOk).1.message.text
      = "Download failed" ∧
    (handleDownload st store (ApiOutcome.err (some Y) (some M)) now setOk).1.message.text = Y ∧
    (handleDownload st store (ApiOutcome.err none (some M)) now setOk).1.message.text = M ∧
    (handleDownload st store (ApiOutcome.err none none) now setOk).1.message.text
      = "Failed to download video" := by
  simp [getVideoInfo, handleDownload, jsOr, hurl, hon, hX, hY, hM]

/-- C5 witness: the tier rule at concrete field values. -/
theorem surfaced_error_tiers_witness :
    (jsTrim stateReady.url ≠ "" ∧ stateReady.isOnline = true ∧
      ("X" : String) ≠ "" ∧ ("Y" : String) ≠ "" ∧ ("M" : String) ≠ "") ∧
    ((getVideoInfo stateReady (ApiOutcome.ok false (some "X")
        ⟨none, none, none, none, none⟩)).1.message.text = "X" ∧
     (getVideoInfo stateReady (ApiOutcome.err (some "Y") (some "M"))).1.message.text = "Y" ∧
     (getVideoInfo stateReady (ApiOutcome.err none none)).1.message.text
        = "Failed to connect to server" ∧
     (handleDownload stateReady none (ApiOutcome.ok false none samplePayload)
        "2024-05-05T00:00:00.000Z" true).1.message.text = "Download failed" ∧
     (handleDownload stateReady none (ApiOutcome.err none (some "M"))
        "2024-05-05T00:00:00.000Z" true).1.message.text = "M") := by
  have h := surfaced_error_tiers stateReady none "2024-05-05T00:00:00.000Z"
    "X" "Y" "M" ⟨none, none, none, none, none⟩ samplePayload true
    (by decide) rfl (by decide) (by decide) (by decide)
  exact ⟨⟨by decide, rfl, by decide, by decide, by decide⟩,
    h.1, h.2.2.1, h.2.2.2.2.1, h.2.2.2.2.2.2.1, h.2.2.2.2.2.2.2.2.1⟩

/-! ## C6 -/

/-- A ready state that already holds one history entry. -/
def stateReadyH : AppState :=
  { stateReady with downloadHistory := [sampleEntry] }

/-- C6 counterexample: a successful download whose persistence write
fails still surfaces the success message while the in-memory log and the
store are unchanged — the caller is not informed of the failure and
presents unsaved state as saved (the error is only logged). -/
theorem save_failure_not_surfaced_counterexample :
    (handleDownload stateReadyH (some [sampleEntry])
        (ApiOutcome.ok true none samplePayload) "2024-05-05T00:00:00.000Z"
        false).1.message
      = { type := "success", text := "Download started! Check your downloads folder." } ∧
    (handleDownload stateReadyH (some [sampleEntry])
        (ApiOutcome.ok true none samplePayload) "2024-05-05T00:00:00.000Z"
        false).1.downloadHistory = [sampleEntry] ∧
    (handleDownload stateReadyH (some [sampleEntry])
        (ApiOutcome.ok true none samplePayload) "2024-05-05T00:00:00.000Z"
        false).2.1 = some [sampleEntry] := by
  refine ⟨rfl, by decide, by decide⟩

/-- C6 (amended): when the persistence write succeeds, the in-memory log
and the persisted record both hold the new entry; when it fails, the
in-memory log reverts (state and store unchanged) but the caller is not
informed — the failure is only logged to the console and the message is
untouched. -/
theorem save_atomicity (now : String) (item : HistoryEntry)
    (st : AppState) (store : Store) :
    ((saveToHistory now item st store true).1.downloadHistory
        = ({ item with downloadedAt := some now } :: st.downloadHistory).take 20 ∧
      (saveToHistory now item st store true).2.1
        = some (saveToHistory now item st store true).1.downloadHistory) ∧
    ((saveToHistory now item st store false).1 = st ∧
      (saveToHistory now item st store false).2.1 = store ∧
      (saveToHistory now item st store false).1.message = st.message ∧
      (saveToHistory now item st store false).2.2
        = [Effect.storeSet (({ item with downloadedAt := some now } :: st.downloadHistory).take 20),
           Effect.consoleError "Failed to save history:"]) := by
  simp [saveToHistory]

/-! ## C7 -/

/-- C7 counterexample: when the underlying delete errors, `clearHistory`
leaves the in-memory log unchanged (still holding its entry) instead of
emptying it; only the error log is emitted. -/
theorem clear_failure_counterexample :
    (clearHistory stateReadyH (some [sampleEntry]) false).1.downloadHistory
      = [sampleEntry] ∧
    (clearHistory stateReadyH (some [sampleEntry]) false).1.downloadHistory ≠ [] := by
  refine ⟨rfl, by decide⟩

/-- C7 (amended): `clearHistory` always performs exactly one delete on
the persistence adapter and never raises; when the delete succeeds it
removes the persisted record, empties the in-memory log and sets the
success message; when the delete errors, the error is logged and the
state and the store are left unchanged — the in-memory log is not
emptied. -/
theorem clear_history_behavior (st : AppState) (store : Store) :
    ((clearHistory st store true).1.downloadHistory = [] ∧
      (clearHistory st store true).2.1 = none ∧
      (clearHistory st store true).1.message
        = { type := "success", text := "History cleared" } ∧
      (clearHistory st store true).2.2 = [Effect.storeRemove]) ∧
    ((clearHistory st store false).1 = st ∧
      (clearHistory st store false).2.1 = store ∧
      (clearHistory st store false).2.2
        = [Effect.storeRemove, Effect.consoleError "Failed to clear history:"]) := by
  simp [clearHistory]

/-! ## C8 -/

theorem debounceFires_guard_only (l : List (Nat × String)) :
    ∀ w ∈ debounceFires l, debounceGuard w = true := by
  induction l with
  | nil => intro w hw; simp [debounceFires] at hw
  | cons hd tl ih =>
      intro w hw
      obtain ⟨t1, v1⟩ := hd
      simp only [debounceFires] at hw
      rcases List.mem_append.1 hw with h | h
      · split at h
        next hc =>
          rw [Bool.and_eq_true] at hc
          rw [List.mem_singleton] at h
          subst h
          exact hc.2
        next => simp at h
      · exact ih w h

theorem debounceFires_rapid_last (l : List (Nat × String)) :
    ∀ (t : Nat) (v : String), rapid l = true → l.getLast? = some (t, v) →
      debounceGuard v = true → debounceFires l = [v] := by
  induction l with
  | nil => intro t v _ hl _; simp at hl
  | cons hd tl ih =>
      intro t v hr hl hg
      obtain ⟨t1, v1⟩ := hd
      cases tl with
      | nil =>
          simp only [List.getLast?_singleton, Option.some.injEq] at hl
          have h1 : t1 = t := congrArg Prod.fst hl
          have h2 : v1 = v := congrArg Prod.snd hl
          subst h1; subst h2
          simp [debounceFires, hg]
      | cons hd2 tl2 =>
          obtain ⟨t2, v2⟩ := hd2
          have hr2 : (decide (t2 < t1 + 500) && rapid ((t2, v2) :: tl2)) = true := hr
          rw [Bool.and_eq_true] at hr2
          have hlt : t2 < t1 + 500 := of_decide_eq_true hr2.1
          have hl2 : ((t2, v2) :: tl2).getLast? = some (t, v) := by
            rw [← List.getLast?_cons_cons (a := (t1, v1))]
            exact hl
          have hdead : decide (t1 + 500 ≤ t2) = false := by
            simp only [decide_eq_false_iff_not]
            omega
          simp only [debounceFires, hdead, Bool.false_and, if_false,
            List.nil_append]
          exact ih t v hr2.2 hl2 hg

/-- C8: over any run of URL changes less than 500ms apart whose last
value passes the guard, exactly one metadata fetch fires, with the
last-entered value; and over any run of changes whatsoever, every fired
fetch used a value that is non-empty after trimming and contains the
scheme marker `http` (a fetch fires only after a 500ms quiet gap, by
construction of `debounceFires`). -/
theorem debounce_single_fetch_last_value
    (evs other : List (Nat × String)) (t : Nat) (v : String)
    (hrapid : rapid evs = true)
    (hlast : evs.getLast? = some (t, v))
    (hguard : debounceGuard v = true) :
    debounceFires evs = [v] ∧
    ∀ w ∈ debounceFires other, jsTrim w ≠ "" ∧ strIncludes w "http" = true := by
  refine ⟨debounceFires_rapid_last evs t v hrapid hlast hguard, fun w hw => ?_⟩
  have hg := debounceFires_guard_only other w hw
  rw [debounceGuard, Bool.and_eq_true] at hg
  refine ⟨?_, hg.2⟩
  simpa using hg.1

/-- C8 witness: three rapid changes 100ms apart; only the last value is
fetched. -/
theorem debounce_single_fetch_last_value_witness :
    (rapid [(0, "h"), (100, "ht"), (200, "https://example.com/v1")] = true ∧
      [(0, "h"), (100, "ht"), (200, "https://example.com/v1")].getLast?
        = some (200, "https://example.com/v1") ∧
      debounceGuard "https://example.com/v1" = true) ∧
    debounceFires [(0, "h"), (100, "ht"), (200, "https://example.com/v1")]
      = ["https://example.com/v1"] :=
  ⟨⟨by decide, by decide, by decide⟩,
    (debounce_single_fetch_last_value
      [(0, "h"), (100, "ht"), (200, "https://example.com/v1")] []
      200 "https://example.com/v1" (by decide) (by decide) (by decide)).1⟩

/-! ## C9 -/

/-- Metadata returned by the first (superseded) fetch. -/
def dataOld : VideoData := ⟨some "Old title", none, some 10, none, none⟩

/-- Metadata returned by the newer fetch. -/
def dataNew : VideoData := ⟨some "New title", none, some 20, none, none⟩

/-- C9 counterexample: two fetches are started (the second supersedes the
first); the newer fetch completes first with `dataNew`, then the
superseded fetch completes with `dataOld`. The completion handler applies
its result unconditionally, so the superseded fetch overwrites the newer
fetch's UI state: the final `videoInfo` is the stale `dataOld`, not
`dataNew`. -/
theorem stale_fetch_overwrites_counterexample :
    (runFetches stateReady
        [FetchEvent.start, FetchEvent.start,
         FetchEvent.complete (ApiOutcome.ok true none dataNew),
         FetchEvent.complete (ApiOutcome.ok true none dataOld)]).videoInfo
      = some dataOld ∧
    (runFetches stateReady
        [FetchEvent.start, FetchEvent.start,
         FetchEvent.complete (ApiOutcome.ok true none dataNew),
         FetchEvent.complete (ApiOutcome.ok true none dataOld)]).videoInfo
      ≠ some dataNew := by
  refine ⟨rfl, by decide⟩

/-- C9 (amended): completions are applied unconditionally in completion
order (last completion wins): whichever successful fetch completes last
determines `videoInfo`, whether or not it was superseded by a newer
fetch. -/
theorem stale_fetch_last_completion_wins (st : AppState)
    (eNew eOld : Option String) (dNew dOld : VideoData) :
    (runFetches st
        [FetchEvent.start, FetchEvent.start,
         FetchEvent.complete (ApiOutcome.ok true eNew dNew),
         FetchEvent.complete (ApiOutcome.ok true eOld dOld)]).videoInfo
      = some dOld ∧
    (runFetches st
        [FetchEvent.start, FetchEvent.start,
         FetchEvent.complete (ApiOutcome.ok true eOld dOld),
         FetchEvent.complete (ApiOutcome.ok true eNew dNew)]).videoInfo
      = some dNew := by
  constructor
  · rfl
  · rfl

/-! ## C10 -/

/-- C10: with a non-empty trimmed URL and online, a successful download
resets the url input to the empty string and `videoInfo` to `null`,
while any failed download (application-level or transport) leaves `url`,
`videoInfo`, `quality`, the history and the other fields unchanged, with
only `message` and `loading` updated. -/
theorem download_frame_conditions (st : AppState) (store : Store)
    (e detail m : Option String) (p : DownloadPayload) (now : String)
    (setOk : Bool)
    (hurl : jsTrim st.url ≠ "") (hon : st.isOnline = true) :
    ((handleDownload st store (ApiOutcome.ok true e p) now setOk).1.url = "" ∧
      (handleDownload st store (ApiOutcome.ok true e p) now setOk).1.videoInfo = none) ∧
    ((handleDownload st store (ApiOutcome.ok false e p) now setOk).1.url = st.url ∧
      (handleDownload st store (ApiOutcome.ok false e p) now setOk).1.videoInfo = st.videoInfo ∧
      (handleDownload st store (ApiOutcome.ok false e p) now setOk).1.quality = st.quality ∧
      (handleDownload st store (ApiOutcome.ok false e p) now setOk).1.downloadHistory
        = st.downloadHistory ∧
      (handleDownload st store (ApiOutcome.ok false e p) now setOk).1.loadingInfo
        = st.loadingInfo ∧
      (handleDownload st store (ApiOutcome.ok false e p) now setOk).1.isOnline = st.isOnline ∧
      (handleDownload st store (ApiOutcome.ok false e p) now setOk).1.loading = false ∧
      (handleDownload st store (ApiOutcome.ok false e p) now setOk).1.message.type
        = "error") ∧
    ((handleDownload st store (ApiOutcome.err detail m) now setOk).1.url = st.url ∧
      (handleDownload st store (ApiOutcome.err detail m) now setOk).1.videoInfo = st.videoInfo ∧
      (handleDownload st store (ApiOutcome.err detail m) now setOk).1.quality = st.quality ∧
      (handleDownload st store (ApiOutcome.err detail m) now setOk).1.downloadHistory
        = st.downloadHistory ∧
      (handleDownload st store (ApiOutcome.err detail m) now setOk).1.loadingInfo
        = st.loadingInfo ∧
      (handleDownload st store (ApiOutcome.err detail m) now setOk).1.isOnline = st.isOnline ∧
      (handleDownload st store (ApiOutcome.err detail m) now setOk).1.loading = false ∧
      (handleDownload st store (ApiOutcome.err detail m) now setOk).1.message.type
        = "error") := by
  simp [handleDownload, hurl, hon]

/-- C10 witness: the frame conditions at a concrete ready state. -/
theorem download_frame_conditions_witness :
    (jsTrim stateReadyH.url ≠ "" ∧ stateReadyH.isOnline = true) ∧
    ((handleDownload stateReadyH none (ApiOutcome.ok true none samplePayload)
        "2024-05-05T00:00:00.000Z" true).1.url = "" ∧
      (handleDownload stateReadyH none (ApiOutcome.ok true none samplePayload)
        "2024-05-05T00:00:00.000Z" true).1.videoInfo = none) ∧
    ((handleDownload stateReadyH none (ApiOutcome.ok false none samplePayload)
        "2024-05-05T00:00:00.000Z" true).1.url = stateReadyH.url ∧
      (handleDownload stateReadyH none (ApiOutcome.ok false none samplePayload)
        "2024-05-05T00:00:00.000Z" true).1.videoInfo = stateReadyH.videoInfo ∧
      (handleDownload stateReadyH none (ApiOutcome.ok false none samplePayload)
        "2024-05-05T00:00:00.000Z" true).1.downloadHistory = stateReadyH.downloadHistory) ∧
    ((handleDownload stateReadyH none (ApiOutcome.err none (some "Network Error"))
        "2024-05-05T00:00:00.000Z" true).1.url = stateReadyH.url ∧
      (handleDownload stateReadyH none (ApiOutcome.err none (some "Network Error"))
        "2024-05-05T00:00:00.000Z" true).1.videoInfo = stateReadyH.videoInfo) := by
  have h := download_frame_conditions stateReadyH none none none
    (some "Network Error") samplePayload "2024-05-05T00:00:00.000Z" true
    (by decide) rfl
  exact ⟨⟨by decide, rfl⟩, h.1, ⟨h.2.1.1, h.2.1.2.1, h.2.1.2.2.2.1⟩,
    ⟨h.2.2.1, h.2.2.2.1⟩⟩
